import Mathlib

/-!
Verification of the vibebase-social backend.

A shallow embedding of the persistence layer (`src/server/storage.ts`,
class `DatabaseStorage`) and the route handlers (`src/unnamed/part_000`,
`registerRoutes`) of the photo-sharing backend.  The relational store is
modelled as lists of rows; every storage method becomes a pure function on
that state, timestamps (`Date.now()`, SQL `NOW()`) become an explicit `now
: Nat` parameter (milliseconds), and SQL `ORDER BY ... DESC` becomes a
comparison sort on the embedded rows.

The table definitions live in `@shared/schema`, which is not part of the
provided sources; the row types below are modelled from the spec's data
model (§3): Like and Follow are existence-only composite relations, a Post
has caption text, an image reference and an optional location, a Story has
`expiresAt`.
-/

/-- Modelled from the spec: the `users` row of `@shared/schema` (identity id,
username, profile fields, `isAdmin`, `isVerified`, `isBanned`, `bannedReason`,
timestamps). -/
structure User where
  id : String
  username : String
  isAdmin : Bool
  isVerified : Bool
  isBanned : Bool
  bannedReason : Option String
  createdAt : Nat
  updatedAt : Nat
deriving DecidableEq, Repr

/-- Modelled from the spec: the `posts` row (id, owning user id, caption text,
image reference, optional location, created timestamp). -/
structure Post where
  id : Nat
  userId : String
  caption : String
  imageUrl : String
  location : Option String
  createdAt : Nat
deriving DecidableEq, Repr

/-- Modelled from the spec: the `likes` row, an existence-only composite
relation (user id, post id) with no payload. -/
structure Like where
  userId : String
  postId : Nat
deriving DecidableEq, Repr

/-- Modelled from the spec: the `comments` row (id, post id, user id, text,
created timestamp). -/
structure Comment where
  id : Nat
  postId : Nat
  userId : String
  text : String
  createdAt : Nat
deriving DecidableEq, Repr

/-- Modelled from the spec: the `follows` row, an existence-only composite
relation (follower id, following id). -/
structure Follow where
  followerId : String
  followingId : String
deriving DecidableEq, Repr

/-- Modelled from the spec: the `stories` row (id, user id, media reference,
created timestamp, `expiresAt`). -/
structure Story where
  id : Nat
  userId : String
  imageUrl : String
  createdAt : Nat
  expiresAt : Nat
deriving DecidableEq, Repr

/-- The relational store: one list of rows per table. -/
structure DB where
  users : List User
  posts : List Post
  likes : List Like
  comments : List Comment
  follows : List Follow
  stories : List Story
deriving DecidableEq, Repr

def emptyDB : DB := ⟨[], [], [], [], [], []⟩

/-- `ORDER BY key DESC`: sort a list of rows so that the `Nat` key is
non-increasing. -/
def sortByDesc {α : Type} (key : α → Nat) (l : List α) : List α :=
  List.insertionSort (fun a b => key b ≤ key a) l

/-- Values passed by the route handlers into `insertPostSchema.parse` /
`storage.createPost` (`userId`, `caption`, `location`, `imageUrl`). -/
structure InsertPost where
  userId : String
  caption : String
  location : Option String
  imageUrl : String
deriving DecidableEq, Repr

/-- Values inserted by `storage.createStory` besides the computed
`expiresAt`. -/
structure InsertStory where
  userId : String
  imageUrl : String
deriving DecidableEq, Repr

/-- Values inserted by `storage.createComment`. -/
structure InsertComment where
  postId : Nat
  userId : String
  text : String
deriving DecidableEq, Repr

-- ## User operations (storage.ts)

/-- `getUser`: `select from users where users.id = id`, first row if any. -/
def getUser (st : DB) (id : String) : Option User :=
  (st.users.filter (fun u => u.id == id)).head?

/-- `upsertUser`: insert the row, or on an id conflict update it in place
with a fresh `updatedAt`. -/
def upsertUser (st : DB) (now : Nat) (u : User) : DB :=
  if st.users.any (fun v => v.id == u.id) then
    { st with users := st.users.map (fun v => if v.id == u.id then { u with updatedAt := now } else v) }
  else
    { st with users := st.users ++ [u] }

/-- `updateUserProfile`: `update users set {...data, updatedAt: now} where id`.
The `Partial<User>` patch is modelled as a row transformer. -/
def updateUserProfile (st : DB) (now : Nat) (id : String) (data : User → User) : DB :=
  { st with users := st.users.map (fun u => if u.id == id then { data u with updatedAt := now } else u) }

-- ## Post operations (storage.ts)

/-- `createPost`: insert the post and return the new row. -/
def createPost (st : DB) (now newId : Nat) (p : InsertPost) : DB × Post :=
  let newPost : Post :=
    { id := newId, userId := p.userId, caption := p.caption
    , imageUrl := p.imageUrl, location := p.location, createdAt := now }
  ({ st with posts := st.posts ++ [newPost] }, newPost)

/-- `getPost`: `select from posts where posts.id = id`, first row if any. -/
def getPost (st : DB) (id : Nat) : Option Post :=
  (st.posts.filter (fun p => p.id == id)).head?

/-- `getPosts`: `select from posts order by createdAt desc limit limit offset
offset` (defaults 20 and 0 live at the call sites). -/
def getPosts (st : DB) (limit : Nat := 20) (offset : Nat := 0) : List Post :=
  ((sortByDesc Post.createdAt st.posts).drop offset).take limit

/-- `deletePost`: delete the post's likes, then its comments, then the post
itself — the post row only where both the id and the owning user id match. -/
def deletePost (st : DB) (id : Nat) (userId : String) : DB :=
  { st with
    likes := st.likes.filter (fun l => !(l.postId == id))
    comments := st.comments.filter (fun c => !(c.postId == id))
    posts := st.posts.filter (fun p => !(p.id == id && p.userId == userId)) }

/-- `deletePostAsAdmin`: like `deletePost` but the post row is deleted for a
matching id alone (admin can delete any post). -/
def deletePostAsAdmin (st : DB) (id : Nat) : DB :=
  { st with
    likes := st.likes.filter (fun l => !(l.postId == id))
    comments := st.comments.filter (fun c => !(c.postId == id))
    posts := st.posts.filter (fun p => !(p.id == id)) }

-- ## Like operations (storage.ts)

/-- The composite-key condition `likes.userId = userId AND likes.postId = postId`. -/
def likeMatches (userId : String) (postId : Nat) (l : Like) : Bool :=
  l.userId == userId && l.postId == postId

/-- `toggleLike`: select the row by composite key; if present delete it and
return `false`, otherwise insert it and return `true`. -/
def toggleLike (st : DB) (userId : String) (postId : Nat) : DB × Bool :=
  if st.likes.any (likeMatches userId postId) then
    ({ st with likes := st.likes.filter (fun l => !(likeMatches userId postId l)) }, false)
  else
    ({ st with likes := st.likes ++ [{ userId := userId, postId := postId }] }, true)

/-- `getLikeCount`: `select count(*) from likes where likes.postId = postId`. -/
def getLikeCount (st : DB) (postId : Nat) : Nat :=
  (st.likes.filter (fun l => l.postId == postId)).length

/-- `isPostLiked`: existence of the composite-key row. -/
def isPostLiked (st : DB) (userId : String) (postId : Nat) : Bool :=
  st.likes.any (likeMatches userId postId)

-- ## Comment operations (storage.ts)

/-- `createComment`: insert the comment and return the new row. -/
def createComment (st : DB) (now newId : Nat) (c : InsertComment) : DB × Comment :=
  let newComment : Comment :=
    { id := newId, postId := c.postId, userId := c.userId, text := c.text, createdAt := now }
  ({ st with comments := st.comments ++ [newComment] }, newComment)

/-- `getCommentsByPostId`: the post's comments ordered by `createdAt` desc. -/
def getCommentsByPostId (st : DB) (postId : Nat) : List Comment :=
  sortByDesc Comment.createdAt (st.comments.filter (fun c => c.postId == postId))

/-- `deleteComment`: delete where both the comment id and the author match. -/
def deleteComment (st : DB) (id : Nat) (userId : String) : DB :=
  { st with comments := st.comments.filter (fun c => !(c.id == id && c.userId == userId)) }

-- ## Follow operations (storage.ts)

/-- The composite-key condition on `follows`. -/
def followMatches (followerId followingId : String) (f : Follow) : Bool :=
  f.followerId == followerId && f.followingId == followingId

/-- `toggleFollow`: same toggle semantics as `toggleLike`, on `follows`. -/
def toggleFollow (st : DB) (followerId followingId : String) : DB × Bool :=
  if st.follows.any (followMatches followerId followingId) then
    ({ st with follows := st.follows.filter (fun f => !(followMatches followerId followingId f)) }, false)
  else
    ({ st with follows := st.follows ++ [{ followerId := followerId, followingId := followingId }] }, true)

/-- `getFollowerCount`: `count(*) from follows where followingId = userId`. -/
def getFollowerCount (st : DB) (userId : String) : Nat :=
  (st.follows.filter (fun f => f.followingId == userId)).length

/-- `getFollowingCount`: `count(*) from follows where followerId = userId`. -/
def getFollowingCount (st : DB) (userId : String) : Nat :=
  (st.follows.filter (fun f => f.followerId == userId)).length

/-- `isFollowing`: existence of the composite-key row. -/
def isFollowing (st : DB) (followerId followingId : String) : Bool :=
  st.follows.any (followMatches followerId followingId)

-- ## Story operations (storage.ts)

/-- 24 hours in milliseconds: `24 * 60 * 60 * 1000`. -/
def dayMs : Nat := 24 * 60 * 60 * 1000

/-- `createStory`: `expiresAt = Date.now() + 24h`; insert `{...story, expiresAt}`
and return the new row (`createdAt` is the database's insertion timestamp). -/
def createStory (st : DB) (now newId : Nat) (s : InsertStory) : DB × Story :=
  let expiresAt := now + dayMs
  let newStory : Story :=
    { id := newId, userId := s.userId, imageUrl := s.imageUrl
    , createdAt := now, expiresAt := expiresAt }
  ({ st with stories := st.stories ++ [newStory] }, newStory)

/-- `getActiveStories`: `select from stories where expiresAt > NOW() order by
createdAt desc`. -/
def getActiveStories (st : DB) (now : Nat) : List Story :=
  sortByDesc Story.createdAt (st.stories.filter (fun s => now < s.expiresAt))

/-- `deleteExpiredStories`: `delete from stories where expiresAt < now`. -/
def deleteExpiredStories (st : DB) (now : Nat) : DB :=
  { st with stories := st.stories.filter (fun s => !(s.expiresAt < now : Bool)) }

-- ## Admin operations (storage.ts)

/-- `getAllUsers`: all users ordered by `createdAt` desc, limit/offset. -/
def getAllUsers (st : DB) (limit : Nat := 50) (offset : Nat := 0) : List User :=
  ((sortByDesc User.createdAt st.users).drop offset).take limit

/-- `banUser`: set `isBanned` and `bannedReason` on the matching user. -/
def banUser (st : DB) (now : Nat) (userId reason : String) : DB :=
  { st with users := st.users.map (fun u =>
      if u.id == userId then { u with isBanned := true, bannedReason := some reason, updatedAt := now } else u) }

/-- `unbanUser`: clear `isBanned` and `bannedReason` on the matching user. -/
def unbanUser (st : DB) (now : Nat) (userId : String) : DB :=
  { st with users := st.users.map (fun u =>
      if u.id == userId then { u with isBanned := false, bannedReason := none, updatedAt := now } else u) }

/-- `verifyUser`: set `isVerified` on the matching user. -/
def verifyUser (st : DB) (now : Nat) (userId : String) : DB :=
  { st with users := st.users.map (fun u =>
      if u.id == userId then { u with isVerified := true, updatedAt := now } else u) }

/-- `unverifyUser`: clear `isVerified` on the matching user. -/
def unverifyUser (st : DB) (now : Nat) (userId : String) : DB :=
  { st with users := st.users.map (fun u =>
      if u.id == userId then { u with isVerified := false, updatedAt := now } else u) }

/-- `makeAdmin`: set `isAdmin` on the matching user. -/
def makeAdmin (st : DB) (now : Nat) (userId : String) : DB :=
  { st with users := st.users.map (fun u =>
      if u.id == userId then { u with isAdmin := true, updatedAt := now } else u) }

/-- `removeAdmin`: clear `isAdmin` on the matching user. -/
def removeAdmin (st : DB) (now : Nat) (userId : String) : DB :=
  { st with users := st.users.map (fun u =>
      if u.id == userId then { u with isAdmin := false, updatedAt := now } else u) }

-- ## Hashtag operations (storage.ts)

/-- POSIX `\w`: a word character (letter, digit or underscore). -/
def isWordChar (c : Char) : Bool :=
  c.isAlphanum || c == '_'

/-- A token matching the filter `hashtag ~ '^#\w+'`: it starts with `#`
followed by at least one word character. -/
def isHashtagToken (t : String) : Bool :=
  match t.data with
  | '#' :: c :: _ => isWordChar c
  | _ => false

/-- The post filter `caption ~ '#\w+'`: the caption contains a `#`
immediately followed by a word character somewhere. -/
def captionHasHashtag (s : String) : Bool :=
  (s.data.zip s.data.tail).any (fun p => p.1 == '#' && isWordChar p.2)

/-- `regexp_split_to_array(caption, '\s+')`, on the caption's character list:
split at every whitespace character.  Splitting at each whitespace character
(rather than at runs) adds only empty fields, none of which pass
`isHashtagToken`, so the retained token multiset is that of the `\s+` split. -/
def splitWsAux : List Char → List Char → List String
  | [], acc => [String.mk acc.reverse]
  | c :: rest, acc =>
    if c.isWhitespace then String.mk acc.reverse :: splitWsAux rest []
    else splitWsAux rest (c :: acc)

def splitWs (s : String) : List String := splitWsAux s.data []

/-- The `hashtags` CTE restricted to one post, after the outer filter: the
whitespace-split tokens of the caption that match `^#\w+`, from posts whose
caption matches `#\w+` (a post failing that filter contributes no tokens
either way, since none of its tokens can start with `#` + word char). -/
def postHashtagTokens (p : Post) : List String :=
  if captionHasHashtag p.caption then (splitWs p.caption).filter isHashtagToken
  else []

/-- One row of the trending result: a tag and its occurrence count. -/
structure TrendingRow where
  tag : String
  posts : Nat
deriving DecidableEq, Repr

/-- `getTrendingHashtags`: tokenize every caption on whitespace, keep the
tokens matching `^#\w+`, group equal tokens, count each group, order by
count descending and keep the first `limit` rows. -/
def getTrendingHashtags (st : DB) (limit : Nat := 10) : List TrendingRow :=
  let toks := (st.posts.map postHashtagTokens).flatten
  let grouped := toks.dedup.map (fun t => TrendingRow.mk t (toks.countP (fun x => x == t)))
  (sortByDesc TrendingRow.posts grouped).take limit

-- ## Route handlers (part_000, registerRoutes)

/-- `parseInt(q) || d`: an absent or non-numeric query parameter — and also
an explicit `0`, since `0` is falsy — falls back to the default. -/
def orDefault (q : Option Nat) (d : Nat) : Nat :=
  match q with
  | none => d
  | some n => if n == 0 then d else n

/-- The enriched post shape built by the `GET /api/posts` handler:
`{...post, user, likeCount, commentCount, comments}`. -/
structure EnrichedPost where
  post : Post
  user : Option User
  likeCount : Nat
  commentCount : Nat
  comments : List Comment
deriving DecidableEq, Repr

/-- The per-post enrichment of the `GET /api/posts` handler: the owning user,
the like count, `commentCount = comments.length` over all of the post's
comments, and `comments.slice(0, 3)` of the newest-first comment list. -/
def enrichPost (st : DB) (p : Post) : EnrichedPost :=
  let comments := getCommentsByPostId st p.id
  { post := p
  , user := getUser st p.userId
  , likeCount := getLikeCount st p.id
  , commentCount := comments.length
  , comments := comments.take 3 }

/-- The `GET /api/posts` handler: parse `limit`/`offset` with defaults 20/0,
page through `getPosts`, and enrich every returned post. -/
def getPostsHandler (st : DB) (limitQ offsetQ : Option Nat) : List EnrichedPost :=
  let limit := orDefault limitQ 20
  let offset := orDefault offsetQ 0
  (getPosts st limit offset).map (enrichPost st)

/-- Outcome of the `isAdmin` middleware on an admin route. -/
inductive AdminDecision where
  /-- `res.status(403).json({ message: "Admin access required" })`. -/
  | forbidden403 : AdminDecision
  /-- `res.status(500).json({ message: "Failed to check admin status" })`. -/
  | serverError500 : AdminDecision
  /-- `next()` — the route handler runs. -/
  | proceed : AdminDecision
deriving DecidableEq, Repr

/-- The `isAdmin` middleware: load the caller's user record; if the lookup
throws, answer 500; if the record is missing or `isAdmin` is unset, answer
403; otherwise call `next()`.  The fallible lookup is the `Except` argument
(`.ok` = what `storage.getUser` returned, `.error` = the lookup threw). -/
def isAdminCheck (lookup : Except Unit (Option User)) : AdminDecision :=
  match lookup with
  | .error _ => .serverError500
  | .ok currentUser =>
    if currentUser.elim false User.isAdmin then .proceed else .forbidden403

/-- The multer upload accepted by `upload.single('image')`. -/
structure UploadedFile where
  filename : String
deriving DecidableEq, Repr

/-- Modelled from the spec: `insertPostSchema` lives in `@shared/schema`,
which is not in the provided sources.  Per the spec's data model a Post has
"caption text, image reference, optional location", and the schema "fails
with a validation error if required fields are missing": `caption` is
required (`none` fails), `location` is optional, and `userId`/`imageUrl` are
always supplied by the handler. -/
def insertPostSchemaParse (userId : String) (caption location : Option String)
    (imageUrl : String) : Option InsertPost :=
  match caption with
  | none => none
  | some c => some { userId := userId, caption := c, location := location, imageUrl := imageUrl }

/-- Response of the `POST /api/posts` handler. -/
inductive PostResponse where
  /-- `res.status(400).json({ message })`. -/
  | badRequest400 (message : String) : PostResponse
  /-- `res.status(500).json({ message })` from the `catch` block. -/
  | serverError500 (message : String) : PostResponse
  /-- `res.json(post)`. -/
  | created (post : Post) : PostResponse
deriving DecidableEq, Repr

/-- The HTTP status code of a `PostResponse` (200 for `res.json`). -/
def PostResponse.status : PostResponse → Nat
  | .badRequest400 _ => 400
  | .serverError500 _ => 500
  | .created _ => 200

/-- The `POST /api/posts` handler: without an uploaded file answer
`400 "Image is required"`; otherwise build `imageUrl` from the file, run
`insertPostSchema.parse` — whose thrown validation error is caught by the
surrounding `catch`, answering `500 "Failed to create post"` — and on
success persist via `createPost` and return the new post. -/
def createPostHandler (st : DB) (now newId : Nat) (userId : String)
    (file : Option UploadedFile) (caption location : Option String) : DB × PostResponse :=
  match file with
  | none => (st, .badRequest400 "Image is required")
  | some f =>
    let imageUrl := "/uploads/" ++ f.filename
    match insertPostSchemaParse userId caption location imageUrl with
    | none => (st, .serverError500 "Failed to create post")
    | some postData =>
      let r := createPost st now newId postData
      (r.1, .created r.2)

/-- The enriched story shape of the `GET /api/stories` handler:
`{...story, user}`. -/
structure EnrichedStory where
  story : Story
  user : Option User
deriving DecidableEq, Repr

/-- The `GET /api/stories` handler: the active stories, each enriched with
its owning user. -/
def getStoriesHandler (st : DB) (now : Nat) : List EnrichedStory :=
  (getActiveStories st now).map (fun s => { story := s, user := getUser st s.userId })

-- ## The mutating storage operations as one step relation

/-- Every mutating operation of `DatabaseStorage` (the remaining methods are
pure `select`s), with explicit timestamps and fresh row ids. -/
inductive StoreOp where
  | upsertUser (now : Nat) (u : User) : StoreOp
  | updateUserProfile (now : Nat) (id : String) (data : User → User) : StoreOp
  | createPost (now newId : Nat) (p : InsertPost) : StoreOp
  | deletePost (id : Nat) (userId : String) : StoreOp
  | deletePostAsAdmin (id : Nat) : StoreOp
  | toggleLike (userId : String) (postId : Nat) : StoreOp
  | createComment (now newId : Nat) (c : InsertComment) : StoreOp
  | deleteComment (id : Nat) (userId : String) : StoreOp
  | toggleFollow (followerId followingId : String) : StoreOp
  | createStory (now newId : Nat) (s : InsertStory) : StoreOp
  | deleteExpiredStories (now : Nat) : StoreOp
  | banUser (now : Nat) (userId reason : String) : StoreOp
  | unbanUser (now : Nat) (userId : String) : StoreOp
  | verifyUser (now : Nat) (userId : String) : StoreOp
  | unverifyUser (now : Nat) (userId : String) : StoreOp
  | makeAdmin (now : Nat) (userId : String) : StoreOp
  | removeAdmin (now : Nat) (userId : String) : StoreOp

/-- Apply one mutating storage operation to the store. -/
def applyOp (st : DB) : StoreOp → DB
  | .upsertUser now u => upsertUser st now u
  | .updateUserProfile now id data => updateUserProfile st now id data
  | .createPost now newId p => (createPost st now newId p).1
  | .deletePost id userId => deletePost st id userId
  | .deletePostAsAdmin id => deletePostAsAdmin st id
  | .toggleLike userId postId => (toggleLike st userId postId).1
  | .createComment now newId c => (createComment st now newId c).1
  | .deleteComment id userId => deleteComment st id userId
  | .toggleFollow followerId followingId => (toggleFollow st followerId followingId).1
  | .createStory now newId s => (createStory st now newId s).1
  | .deleteExpiredStories now => deleteExpiredStories st now
  | .banUser now userId reason => banUser st now userId reason
  | .unbanUser now userId => unbanUser st now userId
  | .verifyUser now userId => verifyUser st now userId
  | .unverifyUser now userId => unverifyUser st now userId
  | .makeAdmin now userId => makeAdmin st now userId
  | .removeAdmin now userId => removeAdmin st now userId

-- ## Sample rows and stores, used to instantiate the theorems

def alice : User :=
  { id := "alice", username := "alice", isAdmin := false, isVerified := false
  , isBanned := false, bannedReason := none, createdAt := 10, updatedAt := 10 }

def bob : User :=
  { id := "bob", username := "bob", isAdmin := true, isVerified := false
  , isBanned := false, bannedReason := none, createdAt := 20, updatedAt := 20 }

def post1 : Post :=
  { id := 1, userId := "alice", caption := "hello #world"
  , imageUrl := "/uploads/a.png", location := none, createdAt := 100 }

def post2 : Post :=
  { id := 2, userId := "bob", caption := "see #world"
  , imageUrl := "/uploads/b.png", location := none, createdAt := 200 }

/-- A small populated store: two users, two posts, two likes and four
comments on post 1, one follow, one active and one expired story. -/
def sampleDB : DB :=
  { users := [alice, bob]
  , posts := [post1, post2]
  , likes := [⟨"alice", 1⟩, ⟨"bob", 1⟩]
  , comments :=
      [ ⟨1, 1, "bob", "hi", 1⟩, ⟨2, 1, "alice", "again", 2⟩
      , ⟨3, 1, "bob", "more", 3⟩, ⟨4, 1, "alice", "newest", 4⟩
      , ⟨5, 2, "alice", "other", 5⟩ ]
  , follows := [⟨"alice", "bob"⟩]
  , stories :=
      [ ⟨1, "alice", "/uploads/s1.png", 50, 50 + dayMs⟩
      , ⟨2, "bob", "/uploads/s2.png", 10, 20⟩ ] }

/-- The store of the spec's trending-hashtags example: three posts with
captions "I love #cats", "#cats are great", "#dogs too". -/
def catsDB : DB :=
  { emptyDB with posts :=
      [ { id := 1, userId := "u", caption := "I love #cats"
        , imageUrl := "/uploads/1.png", location := none, createdAt := 1 }
      , { id := 2, userId := "u", caption := "#cats are great"
        , imageUrl := "/uploads/2.png", location := none, createdAt := 2 }
      , { id := 3, userId := "u", caption := "#dogs too"
        , imageUrl := "/uploads/3.png", location := none, createdAt := 3 } ] }

-- ## Library facts about the embedding's building blocks

lemma sorted_sortByDesc {α : Type} (key : α → Nat) (l : List α) :
    List.Sorted (fun a b => key b ≤ key a) (sortByDesc key l) := by
  unfold sortByDesc
  exact @List.sorted_insertionSort α (fun a b => key b ≤ key a) _
    ⟨fun a b => le_total (key b) (key a)⟩ ⟨fun _ _ _ h1 h2 => le_trans h2 h1⟩ l

lemma perm_sortByDesc {α : Type} (key : α → Nat) (l : List α) :
    (sortByDesc key l).Perm l :=
  List.perm_insertionSort _ l

lemma mem_sortByDesc {α : Type} {key : α → Nat} {l : List α} {a : α} :
    a ∈ sortByDesc key l ↔ a ∈ l :=
  (perm_sortByDesc key l).mem_iff

lemma sorted_take_le_drop {α : Type} (key : α → Nat) {l : List α}
    (h : List.Sorted (fun a b => key b ≤ key a) l) (n : Nat) :
    ∀ a ∈ l.take n, ∀ b ∈ l.drop n, key b ≤ key a := by
  have hp : List.Pairwise (fun a b => key b ≤ key a) (l.take n ++ l.drop n) := by
    rw [List.take_append_drop]; exact h
  exact (List.pairwise_append.mp hp).2.2

lemma perm_any {α : Type} {l1 l2 : List α} (h : l1.Perm l2) (m : α → Bool) :
    l1.any m = l2.any m := by
  rw [Bool.eq_iff_iff, List.any_eq_true, List.any_eq_true]
  exact ⟨fun ⟨x, hx, hm⟩ => ⟨x, h.mem_iff.1 hx, hm⟩,
         fun ⟨x, hx, hm⟩ => ⟨x, h.mem_iff.2 hx, hm⟩⟩

lemma perm_filter_length {α : Type} {l1 l2 : List α} (h : l1.Perm l2) (q : α → Bool) :
    (l1.filter q).length = (l2.filter q).length := by
  rw [← List.countP_eq_length_filter, ← List.countP_eq_length_filter]
  exact h.countP_eq q

lemma any_filter_not {α : Type} (m : α → Bool) (l : List α) :
    (l.filter (fun x => !(m x))).any m = false := by
  rw [Bool.eq_false_iff]
  intro hc
  obtain ⟨x, hx, hm⟩ := List.any_eq_true.mp hc
  obtain ⟨-, hnot⟩ := List.mem_filter.mp hx
  simp [hm] at hnot

lemma filter_not_of_none {α : Type} {m : α → Bool} {l : List α} (h : l.any m = false) :
    l.filter (fun x => !(m x)) = l := by
  rw [List.filter_eq_self]
  intro a ha
  have := List.any_eq_false.mp h a ha
  simp [this]

/-- Deleting the unique matching row and re-inserting the canonical row is a
permutation: the multiset of rows is unchanged. -/
lemma filter_not_append_perm {α : Type} {l : List α} {m : α → Bool} {a : α}
    (h1 : l.countP m = 1) (h2 : ∀ x ∈ l, m x = true → x = a) :
    (l.filter (fun x => !(m x)) ++ [a]).Perm l := by
  induction l with
  | nil => simp at h1
  | cons x t ih =>
    by_cases hx : m x = true
    · have hxa : x = a := h2 x (by simp) hx
      have ht : t.countP m = 0 := by
        rw [List.countP_cons, if_pos hx] at h1
        omega
      have htf : t.filter (fun x => !(m x)) = t := by
        rw [List.filter_eq_self]
        intro y hy
        have := List.countP_eq_zero.mp ht y hy
        simp [this]
      rw [List.filter_cons, if_neg (by simp [hx]), htf, hxa]
      exact List.perm_append_singleton a t
    · have hxf : m x = false := by simpa using hx
      have ht1 : t.countP m = 1 := by
        rw [List.countP_cons, if_neg hx] at h1
        omega
      have hperm := ih ht1 (fun y hy hm => h2 y (by simp [hy]) hm)
      rw [List.filter_cons, if_pos (by simp [hxf]), List.cons_append]
      exact hperm.cons x

-- ## Toggle semantics (toggleLike / toggleFollow)

/-- Toggling a like twice: the returned flags flip, and the likes table is
restored up to permutation, provided the relation held at most one row for
the composite key (the schema-level uniqueness invariant). -/
lemma toggleLike_twice (st : DB) (u : String) (p : Nat)
    (hl : st.likes.countP (likeMatches u p) ≤ 1) :
    (toggleLike st u p).2 = !(isPostLiked st u p)
  ∧ (toggleLike (toggleLike st u p).1 u p).2 = !(toggleLike st u p).2
  ∧ ((toggleLike (toggleLike st u p).1 u p).1.likes).Perm st.likes := by
  by_cases h : st.likes.any (likeMatches u p) = true
  · have hcount : st.likes.countP (likeMatches u p) = 1 := by
      have hpos : 0 < st.likes.countP (likeMatches u p) :=
        List.countP_pos_iff.mpr (List.any_eq_true.mp h)
      omega
    have huniq : ∀ x ∈ st.likes, likeMatches u p x = true → x = Like.mk u p := by
      intro x hx hm
      cases x with
      | mk xu xp =>
        simp [likeMatches] at hm
        simp [hm.1, hm.2]
    have h1 : toggleLike st u p
        = ({ st with likes := st.likes.filter (fun l => !(likeMatches u p l)) }, false) := by
      simp [toggleLike, h]
    have hany2 : (st.likes.filter (fun l => !(likeMatches u p l))).any (likeMatches u p) = false :=
      any_filter_not _ _
    have h2 : toggleLike ({ st with likes := st.likes.filter (fun l => !(likeMatches u p l)) }) u p
        = ({ st with likes := st.likes.filter (fun l => !(likeMatches u p l)) ++ [Like.mk u p] }, true) := by
      simp [toggleLike, hany2]
    refine ⟨?_, ?_, ?_⟩
    · rw [h1]; simp [isPostLiked, h]
    · rw [h1, h2]; rfl
    · rw [h1, h2]
      exact filter_not_append_perm hcount huniq
  · have hfalse : st.likes.any (likeMatches u p) = false := by
      simpa using h
    have hrow : likeMatches u p (Like.mk u p) = true := by simp [likeMatches]
    have h1 : toggleLike st u p = ({ st with likes := st.likes ++ [Like.mk u p] }, true) := by
      simp [toggleLike, hfalse]
    have hany2 : (st.likes ++ [Like.mk u p]).any (likeMatches u p) = true := by
      simp [List.any_append, hrow]
    have h2 : toggleLike ({ st with likes := st.likes ++ [Like.mk u p] }) u p
        = ({ st with likes := (st.likes ++ [Like.mk u p]).filter (fun l => !(likeMatches u p l)) }, false) := by
      simp [toggleLike, hany2]
    have hfilter : (st.likes ++ [Like.mk u p]).filter (fun l => !(likeMatches u p l)) = st.likes := by
      rw [List.filter_append, filter_not_of_none hfalse]
      simp [hrow]
    refine ⟨?_, ?_, ?_⟩
    · rw [h1]; simp [isPostLiked, hfalse]
    · rw [h1, h2]; rfl
    · rw [h1, h2]; simp [hfilter]

/-- Toggling a follow twice: same statement as `toggleLike_twice`, on the
`follows` relation. -/
lemma toggleFollow_twice (st : DB) (f g : String)
    (hf : st.follows.countP (followMatches f g) ≤ 1) :
    (toggleFollow st f g).2 = !(isFollowing st f g)
  ∧ (toggleFollow (toggleFollow st f g).1 f g).2 = !(toggleFollow st f g).2
  ∧ ((toggleFollow (toggleFollow st f g).1 f g).1.follows).Perm st.follows := by
  by_cases h : st.follows.any (followMatches f g) = true
  · have hcount : st.follows.countP (followMatches f g) = 1 := by
      have hpos : 0 < st.follows.countP (followMatches f g) :=
        List.countP_pos_iff.mpr (List.any_eq_true.mp h)
      omega
    have huniq : ∀ x ∈ st.follows, followMatches f g x = true → x = Follow.mk f g := by
      intro x hx hm
      cases x with
      | mk xf xg =>
        simp [followMatches] at hm
        simp [hm.1, hm.2]
    have h1 : toggleFollow st f g
        = ({ st with follows := st.follows.filter (fun x => !(followMatches f g x)) }, false) := by
      simp [toggleFollow, h]
    have hany2 : (st.follows.filter (fun x => !(followMatches f g x))).any (followMatches f g) = false :=
      any_filter_not _ _
    have h2 : toggleFollow ({ st with follows := st.follows.filter (fun x => !(followMatches f g x)) }) f g
        = ({ st with follows := st.follows.filter (fun x => !(followMatches f g x)) ++ [Follow.mk f g] }, true) := by
      simp [toggleFollow, hany2]
    refine ⟨?_, ?_, ?_⟩
    · rw [h1]; simp [isFollowing, h]
    · rw [h1, h2]; rfl
    · rw [h1, h2]
      exact filter_not_append_perm hcount huniq
  · have hfalse : st.follows.any (followMatches f g) = false := by
      simpa using h
    have hrow : followMatches f g (Follow.mk f g) = true := by simp [followMatches]
    have h1 : toggleFollow st f g = ({ st with follows := st.follows ++ [Follow.mk f g] }, true) := by
      simp [toggleFollow, hfalse]
    have hany2 : (st.follows ++ [Follow.mk f g]).any (followMatches f g) = true := by
      simp [List.any_append, hrow]
    have h2 : toggleFollow ({ st with follows := st.follows ++ [Follow.mk f g] }) f g
        = ({ st with follows := (st.follows ++ [Follow.mk f g]).filter (fun x => !(followMatches f g x)) }, false) := by
      simp [toggleFollow, hany2]
    have hfilter : (st.follows ++ [Follow.mk f g]).filter (fun x => !(followMatches f g x)) = st.follows := by
      rw [List.filter_append, filter_not_of_none hfalse]
      simp [hrow]
    refine ⟨?_, ?_, ?_⟩
    · rw [h1]; simp [isFollowing, hfalse]
    · rw [h1, h2]; rfl
    · rw [h1, h2]; simp [hfilter]

-- ## Claim theorems

/-- C1: the admin check on `GET /admin/users` and `POST /admin/verify-user`
proceeds to the route handler exactly when the caller's user record was
successfully loaded with `isAdmin` set; a missing record or an unset
`isAdmin` flag answers 403, and a failed lookup answers 500 — access is
never granted without a successfully loaded admin record. -/
theorem adminCheck_gates_access (lookup : Except Unit (Option User)) :
    (isAdminCheck lookup = .proceed ↔ ∃ u, lookup = .ok (some u) ∧ u.isAdmin = true)
  ∧ (lookup = .ok none → isAdminCheck lookup = .forbidden403)
  ∧ (∀ u, lookup = .ok (some u) → u.isAdmin = false → isAdminCheck lookup = .forbidden403)
  ∧ (∀ e, lookup = .error e → isAdminCheck lookup = .serverError500) := by
  cases lookup with
  | error e =>
    refine ⟨?_, ?_, ?_, ?_⟩ <;> simp [isAdminCheck]
  | ok o =>
    cases o with
    | none =>
      refine ⟨?_, ?_, ?_, ?_⟩ <;> simp [isAdminCheck]
    | some u =>
      by_cases h : u.isAdmin = true
      · refine ⟨?_, ?_, ?_, ?_⟩ <;> simp [isAdminCheck, h]
      · have hf : u.isAdmin = false := by simpa using h
        refine ⟨?_, ?_, ?_, ?_⟩ <;> simp [isAdminCheck, hf]

theorem adminCheck_gates_access_witness :
    isAdminCheck (Except.ok (some bob)) = .proceed
  ∧ isAdminCheck (Except.ok none) = .forbidden403
  ∧ isAdminCheck (Except.ok (some alice)) = .forbidden403
  ∧ isAdminCheck (Except.error ()) = .serverError500 :=
  ⟨(adminCheck_gates_access _).1.mpr ⟨bob, rfl, rfl⟩,
   (adminCheck_gates_access _).2.1 rfl,
   (adminCheck_gates_access _).2.2.1 alice rfl rfl,
   (adminCheck_gates_access _).2.2.2 () rfl⟩

/-- C2: toggling Like twice for the same (user, post) — respectively Follow
twice for the same (follower, following) — returns to the original
membership state and the original count, the first toggle answering the
opposite of the current membership and the second toggle the opposite of
the first; the rows are restored up to permutation.  The hypotheses are the
schema-level uniqueness invariant: at most one row per composite key. -/
theorem toggle_twice_restores (st : DB) (u : String) (p : Nat) (f g : String)
    (hl : st.likes.countP (likeMatches u p) ≤ 1)
    (hf : st.follows.countP (followMatches f g) ≤ 1) :
    ((toggleLike st u p).2 = !(isPostLiked st u p))
  ∧ ((toggleLike (toggleLike st u p).1 u p).2 = !(toggleLike st u p).2)
  ∧ (isPostLiked (toggleLike (toggleLike st u p).1 u p).1 u p = isPostLiked st u p)
  ∧ (getLikeCount (toggleLike (toggleLike st u p).1 u p).1 p = getLikeCount st p)
  ∧ (((toggleLike (toggleLike st u p).1 u p).1.likes).Perm st.likes)
  ∧ ((toggleFollow st f g).2 = !(isFollowing st f g))
  ∧ ((toggleFollow (toggleFollow st f g).1 f g).2 = !(toggleFollow st f g).2)
  ∧ (isFollowing (toggleFollow (toggleFollow st f g).1 f g).1 f g = isFollowing st f g)
  ∧ (getFollowerCount (toggleFollow (toggleFollow st f g).1 f g).1 g = getFollowerCount st g)
  ∧ (getFollowingCount (toggleFollow (toggleFollow st f g).1 f g).1 f = getFollowingCount st f)
  ∧ (((toggleFollow (toggleFollow st f g).1 f g).1.follows).Perm st.follows) := by
  obtain ⟨l1, l2, l3⟩ := toggleLike_twice st u p hl
  obtain ⟨f1, f2, f3⟩ := toggleFollow_twice st f g hf
  refine ⟨l1, l2, ?_, ?_, l3, f1, f2, ?_, ?_, ?_, f3⟩
  · simp only [isPostLiked]
    exact perm_any l3 _
  · simp only [getLikeCount]
    exact perm_filter_length l3 _
  · simp only [isFollowing]
    exact perm_any f3 _
  · simp only [getFollowerCount]
    exact perm_filter_length f3 _
  · simp only [getFollowingCount]
    exact perm_filter_length f3 _

theorem toggle_twice_restores_witness :
    (isPostLiked (toggleLike (toggleLike sampleDB "alice" 1).1 "alice" 1).1 "alice" 1
       = isPostLiked sampleDB "alice" 1)
  ∧ (getLikeCount (toggleLike (toggleLike sampleDB "alice" 1).1 "alice" 1).1 1
       = getLikeCount sampleDB 1)
  ∧ (getFollowerCount (toggleFollow (toggleFollow sampleDB "alice" "bob").1 "alice" "bob").1 "bob"
       = getFollowerCount sampleDB "bob") :=
  ⟨(toggle_twice_restores sampleDB "alice" 1 "alice" "bob" (by decide) (by decide)).2.2.1,
   (toggle_twice_restores sampleDB "alice" 1 "alice" "bob" (by decide) (by decide)).2.2.2.1,
   (toggle_twice_restores sampleDB "alice" 1 "alice" "bob" (by decide) (by decide)).2.2.2.2.2.2.2.2.1⟩

/-- C3: after `deletePost` (for any caller, in particular the post's owner)
and after `deletePostAsAdmin`, no Like row and no Comment row with the
deleted post's id remains in the store — the dependents are deleted
unconditionally before the post row. -/
theorem deletePost_removes_dependents (st : DB) (id : Nat) (userId : String) :
    ((deletePost st id userId).likes.all (fun l => !(l.postId == id)) = true)
  ∧ ((deletePost st id userId).comments.all (fun c => !(c.postId == id)) = true)
  ∧ ((deletePostAsAdmin st id).likes.all (fun l => !(l.postId == id)) = true)
  ∧ ((deletePostAsAdmin st id).comments.all (fun c => !(c.postId == id)) = true) := by
  refine ⟨?_, ?_, ?_, ?_⟩ <;>
  · simp only [deletePost, deletePostAsAdmin, List.all_eq_true]
    intro x hx
    exact (List.mem_filter.mp hx).2

/-- C10: `deletePost` with a caller who does not own the post of that id
leaves the posts table unchanged, yet still deletes every Like and Comment
row of that post — the owner check guards only the final post deletion. -/
theorem deletePost_wrong_owner_frame (st : DB) (id : Nat) (userId : String)
    (h : ∀ q ∈ st.posts, q.id = id → q.userId ≠ userId) :
    (deletePost st id userId).posts = st.posts
  ∧ ((deletePost st id userId).likes.all (fun l => !(l.postId == id)) = true)
  ∧ ((deletePost st id userId).comments.all (fun c => !(c.postId == id)) = true) := by
  refine ⟨?_, ?_, ?_⟩
  · simp only [deletePost]
    rw [List.filter_eq_self]
    intro q hq
    by_cases hid : q.id = id
    · simp [hid, h q hq hid]
    · simp [hid]
  · simp only [deletePost, List.all_eq_true]
    intro x hx
    exact (List.mem_filter.mp hx).2
  · simp only [deletePost, List.all_eq_true]
    intro x hx
    exact (List.mem_filter.mp hx).2

theorem deletePost_wrong_owner_frame_witness :
    (deletePost sampleDB 1 "bob").posts = sampleDB.posts
  ∧ ((deletePost sampleDB 1 "bob").likes.all (fun l => !(l.postId == 1)) = true)
  ∧ ((deletePost sampleDB 1 "bob").comments.all (fun c => !(c.postId == 1)) = true) :=
  deletePost_wrong_owner_frame sampleDB 1 "bob" (by decide)

/-- C5: `getPosts` returns at most `limit` posts, ordered by creation time
descending, skipping the first `offset` posts of that ordering; the
`GET /posts` handler never returns more than its parsed limit, and absent
query parameters default to limit 20 and offset 0. -/
theorem getPosts_pagination (st : DB) (limit offset : Nat) (limitQ offsetQ : Option Nat) :
    (getPosts st limit offset).length ≤ limit
  ∧ List.Sorted (fun a b : Post => b.createdAt ≤ a.createdAt) (getPosts st limit offset)
  ∧ getPosts st limit offset = (getPosts st (offset + limit) 0).drop offset
  ∧ (getPostsHandler st limitQ offsetQ).length ≤ orDefault limitQ 20
  ∧ orDefault none 20 = 20 ∧ orDefault none 0 = 0
  ∧ getPostsHandler st none none = (getPosts st 20 0).map (enrichPost st) := by
  refine ⟨?_, ?_, ?_, ?_, rfl, rfl, rfl⟩
  · exact List.length_take_le _ _
  · exact List.Pairwise.sublist
      ((List.take_sublist _ _).trans (List.drop_sublist _ _))
      (sorted_sortByDesc Post.createdAt st.posts)
  · simp only [getPosts, List.drop_zero, List.drop_take, Nat.add_sub_cancel_left]
  · simp only [getPostsHandler, List.length_map, getPosts]
    exact List.length_take_le _ _

/-- C6: every post returned by `GET /posts` is enriched with its owning user
record, its like count, the total count of all of the post's comments, and
at most three comments — the post's most recent ones, newest-first. -/
theorem getPosts_enrichment (st : DB) (limitQ offsetQ : Option Nat) (e : EnrichedPost)
    (he : e ∈ getPostsHandler st limitQ offsetQ) :
    e.user = getUser st e.post.userId
  ∧ e.likeCount = getLikeCount st e.post.id
  ∧ e.commentCount = (st.comments.filter (fun c => c.postId == e.post.id)).length
  ∧ e.comments = (getCommentsByPostId st e.post.id).take 3
  ∧ e.comments.length ≤ 3
  ∧ List.Sorted (fun a b : Comment => b.createdAt ≤ a.createdAt) e.comments
  ∧ (∀ c1 ∈ e.comments, ∀ c2 ∈ (getCommentsByPostId st e.post.id).drop 3,
       c2.createdAt ≤ c1.createdAt) := by
  simp only [getPostsHandler] at he
  obtain ⟨p, hp, hep⟩ := List.mem_map.mp he
  subst hep
  refine ⟨rfl, rfl, ?_, rfl, ?_, ?_, ?_⟩
  · simp only [enrichPost, getCommentsByPostId]
    exact (perm_sortByDesc _ _).length_eq
  · exact List.length_take_le _ _
  · exact List.Pairwise.sublist (List.take_sublist _ _)
      (sorted_sortByDesc Comment.createdAt _)
  · exact sorted_take_le_drop Comment.createdAt
      (sorted_sortByDesc Comment.createdAt _) 3

theorem getPosts_enrichment_witness :
    (enrichPost sampleDB post1).commentCount
      = (sampleDB.comments.filter (fun c => c.postId == (enrichPost sampleDB post1).post.id)).length
  ∧ (enrichPost sampleDB post1).comments.length ≤ 3 :=
  ⟨(getPosts_enrichment sampleDB none none (enrichPost sampleDB post1) (by decide)).2.2.1,
   (getPosts_enrichment sampleDB none none (enrichPost sampleDB post1) (by decide)).2.2.2.2.1⟩

/-- C7: the trending-hashtags operation splits every caption on whitespace,
keeps the tokens matching the hashtag pattern, groups equal tokens, counts
occurrences and returns the top N by count descending; on the spec's
example store the top 2 are `#cats` with count 2 above `#dogs` with
count 1. -/
theorem trending_hashtags (st : DB) (n : Nat) :
    getTrendingHashtags catsDB 2 = [⟨"#cats", 2⟩, ⟨"#dogs", 1⟩]
  ∧ (getTrendingHashtags st n).length ≤ n
  ∧ List.Sorted (fun a b : TrendingRow => b.posts ≤ a.posts) (getTrendingHashtags st n)
  ∧ (∀ r ∈ getTrendingHashtags st n, isHashtagToken r.tag = true
       ∧ r.posts = ((st.posts.map postHashtagTokens).flatten).countP (fun x => x == r.tag)) := by
  refine ⟨by decide, ?_, ?_, ?_⟩
  · simp only [getTrendingHashtags]
    exact List.length_take_le _ _
  · simp only [getTrendingHashtags]
    exact List.Pairwise.sublist (List.take_sublist _ _)
      (sorted_sortByDesc TrendingRow.posts _)
  · intro r hr
    simp only [getTrendingHashtags] at hr
    obtain ⟨t, ht, hrt⟩ := List.mem_map.mp (mem_sortByDesc.mp (List.mem_of_mem_take hr))
    subst hrt
    refine ⟨?_, rfl⟩
    have ht2 : t ∈ (st.posts.map postHashtagTokens).flatten := List.mem_dedup.mp ht
    obtain ⟨l, hl, htl⟩ := List.mem_flatten.mp ht2
    obtain ⟨p, hp, hlp⟩ := List.mem_map.mp hl
    subst hlp
    simp only [postHashtagTokens] at htl
    split at htl
    · exact (List.mem_filter.mp htl).2
    · cases htl

theorem trending_hashtags_witness :
    isHashtagToken (TrendingRow.mk "#cats" 2).tag = true
  ∧ (TrendingRow.mk "#cats" 2).posts
      = ((catsDB.posts.map postHashtagTokens).flatten).countP
          (fun x => x == (TrendingRow.mk "#cats" 2).tag) :=
  (trending_hashtags catsDB 2).2.2.2 ⟨"#cats", 2⟩ (by decide)

/-- C8: `GET /stories` returns exactly the stories with `expiresAt` strictly
later than the current time, newest-first, each enriched with its owning
user; a story whose `expiresAt` is in the past is never included and is
removed by the expired-story sweep. -/
theorem stories_expiry (st : DB) (now : Nat) (s : Story) :
    (s ∈ getActiveStories st now ↔ s ∈ st.stories ∧ now < s.expiresAt)
  ∧ List.Sorted (fun a b : Story => b.createdAt ≤ a.createdAt) (getActiveStories st now)
  ∧ getStoriesHandler st now
      = (getActiveStories st now).map (fun t => EnrichedStory.mk t (getUser st t.userId))
  ∧ (s.expiresAt < now → s ∉ getActiveStories st now ∧ s ∉ (deleteExpiredStories st now).stories) := by
  have hiff : s ∈ getActiveStories st now ↔ s ∈ st.stories ∧ now < s.expiresAt := by
    simp only [getActiveStories, mem_sortByDesc, List.mem_filter, decide_eq_true_eq]
  refine ⟨hiff, ?_, rfl, ?_⟩
  · exact sorted_sortByDesc Story.createdAt _
  · intro hlt
    constructor
    · intro hmem
      have := (hiff.mp hmem).2
      omega
    · intro hmem
      have := (List.mem_filter.mp hmem).2
      simp [hlt] at this

theorem stories_expiry_witness :
    Story.mk 2 "bob" "/uploads/s2.png" 10 20 ∉ getActiveStories sampleDB 100
  ∧ Story.mk 2 "bob" "/uploads/s2.png" 10 20 ∉ (deleteExpiredStories sampleDB 100).stories :=
  (stories_expiry sampleDB 100 (Story.mk 2 "bob" "/uploads/s2.png" 10 20)).2.2.2 (by decide)

/-- C9: every story created by `createStory` has `expiresAt` exactly 24
hours after its creation time, and no mutating storage operation ever
changes a stored story's `expiresAt`: any story row present after an
operation was already present unchanged, or is a fresh `createStory` row
satisfying the 24-hour invariant. -/
theorem story_expiry_invariant :
    (∀ (st : DB) (now newId : Nat) (s : InsertStory),
        (createStory st now newId s).2.expiresAt = (createStory st now newId s).2.createdAt + dayMs
      ∧ (createStory st now newId s).2.expiresAt = now + dayMs
      ∧ (createStory st now newId s).1.stories = st.stories ++ [(createStory st now newId s).2])
  ∧ (∀ (op : StoreOp) (st : DB) (s : Story), s ∈ (applyOp st op).stories →
        s ∈ st.stories ∨ s.expiresAt = s.createdAt + dayMs) := by
  constructor
  · intro st now newId s
    exact ⟨rfl, rfl, rfl⟩
  · intro op st s hmem
    cases op with
    | upsertUser now u =>
      left
      have h : (applyOp st (StoreOp.upsertUser now u)).stories = st.stories := by
        simp only [applyOp, upsertUser]
        split <;> rfl
      rwa [h] at hmem
    | updateUserProfile now id data => exact Or.inl hmem
    | createPost now newId p => exact Or.inl hmem
    | deletePost id userId => exact Or.inl hmem
    | deletePostAsAdmin id => exact Or.inl hmem
    | toggleLike userId postId =>
      left
      have h : (applyOp st (StoreOp.toggleLike userId postId)).stories = st.stories := by
        simp only [applyOp, toggleLike]
        split <;> rfl
      rwa [h] at hmem
    | createComment now newId c => exact Or.inl hmem
    | deleteComment id userId => exact Or.inl hmem
    | toggleFollow followerId followingId =>
      left
      have h : (applyOp st (StoreOp.toggleFollow followerId followingId)).stories = st.stories := by
        simp only [applyOp, toggleFollow]
        split <;> rfl
      rwa [h] at hmem
    | createStory now newId ins =>
      simp only [applyOp, createStory] at hmem
      rcases List.mem_append.mp hmem with h | h
      · exact Or.inl h
      · right
        rw [List.mem_singleton] at h
        subst h
        rfl
    | deleteExpiredStories now =>
      simp only [applyOp, deleteExpiredStories] at hmem
      exact Or.inl (List.mem_filter.mp hmem).1
    | banUser now userId reason => exact Or.inl hmem
    | unbanUser now userId => exact Or.inl hmem
    | verifyUser now userId => exact Or.inl hmem
    | unverifyUser now userId => exact Or.inl hmem
    | makeAdmin now userId => exact Or.inl hmem
    | removeAdmin now userId => exact Or.inl hmem

theorem story_expiry_invariant_witness :
    Story.mk 1 "alice" "/uploads/s1.png" 50 (50 + dayMs) ∈ sampleDB.stories
  ∨ (Story.mk 1 "alice" "/uploads/s1.png" 50 (50 + dayMs)).expiresAt
      = (Story.mk 1 "alice" "/uploads/s1.png" 50 (50 + dayMs)).createdAt + dayMs :=
  story_expiry_invariant.2 (.deleteExpiredStories 100) sampleDB
    (Story.mk 1 "alice" "/uploads/s1.png" 50 (50 + dayMs)) (by decide)

/-- C4 counterexample: an authenticated `POST /posts` with an uploaded image
but no `caption` — a field the (spec-modelled) post schema requires — is
answered with the generic 500 from the handler's catch block, not with a
400 validation error, refuting the claim at this input; no post is
persisted. -/
theorem createPost_missing_caption_counterexample :
    (createPostHandler emptyDB 0 1 "u1" (some ⟨"a.png"⟩) none none).2
        = PostResponse.serverError500 "Failed to create post"
  ∧ (createPostHandler emptyDB 0 1 "u1" (some ⟨"a.png"⟩) none none).2.status ≠ 400
  ∧ (createPostHandler emptyDB 0 1 "u1" (some ⟨"a.png"⟩) none none).1 = emptyDB :=
  ⟨rfl, by decide, rfl⟩

/-- C4 (amended): a missing image is answered 400 with nothing persisted; a
missing schema-required body field (the caption) makes `insertPostSchema.parse`
throw, which the handler's catch answers as a 500 server error with nothing
persisted; with all required inputs present the post is persisted and
returned. -/
theorem createPost_validation (st : DB) (now newId : Nat) (userId : String)
    (file : Option UploadedFile) (caption location : Option String) :
    (file = none →
        (createPostHandler st now newId userId file caption location).2
          = PostResponse.badRequest400 "Image is required"
      ∧ (createPostHandler st now newId userId file caption location).1 = st)
  ∧ (∀ f, file = some f → caption = none →
        (createPostHandler st now newId userId file caption location).2
          = PostResponse.serverError500 "Failed to create post"
      ∧ (createPostHandler st now newId userId file caption location).1 = st)
  ∧ (∀ f c, file = some f → caption = some c →
        (createPostHandler st now newId userId file caption location).2
          = PostResponse.created (Post.mk newId userId c ("/uploads/" ++ f.filename) location now)
      ∧ (createPostHandler st now newId userId file caption location).1.posts
          = st.posts ++ [Post.mk newId userId c ("/uploads/" ++ f.filename) location now]) := by
  refine ⟨?_, ?_, ?_⟩
  · rintro rfl
    exact ⟨rfl, rfl⟩
  · rintro f rfl rfl
    exact ⟨rfl, rfl⟩
  · rintro f c rfl rfl
    exact ⟨rfl, rfl⟩

theorem createPost_validation_witness :
    (createPostHandler emptyDB 5 1 "u1" none none none).2
        = PostResponse.badRequest400 "Image is required"
  ∧ (createPostHandler emptyDB 5 1 "u1" (some ⟨"a.png"⟩) (some "hi") none).2
        = PostResponse.created (Post.mk 1 "u1" "hi" "/uploads/a.png" none 5) :=
  ⟨((createPost_validation emptyDB 5 1 "u1" none none none).1 rfl).1,
   ((createPost_validation emptyDB 5 1 "u1" (some ⟨"a.png"⟩) (some "hi") none).2.2
      ⟨"a.png"⟩ "hi" rfl rfl).1⟩
